import Mathlib

/-!
Shallow embedding of `nibabel/arrayproxy.py` (the `ArrayProxy` class and its
helpers).  Python values are modelled as follows: the `keep_file_open`
flag values `None / 'auto' / True / False` become `Option KeepVal` with
`KeepVal = auto | yes | no | other` (`other` stands for any unrecognized
value); floats (`slope`, `inter`) are modelled as exact rationals; file-like
objects and file names are merged into one `SourceObj` record carrying the
duck-typing facts the code probes (`hasattr read`, `hasattr seek`) together
with the name used by `endswith('.gz')`; numpy dtypes are an abstract tag
with a normalization step `npDtype` standing for `numpy.dtype(...)`.
Exceptions become `Except PyErr`.  Handle opening/closing is made observable
through an explicit `World` that logs every `ImageOpener` creation and every
actual close of an owned file.
-/

/-- Values of the `keep_file_open` flag after the `None` default is resolved:
`'auto'`, `True`, `False`, or any other (invalid) value. -/
inductive KeepVal
  | auto
  | yes
  | no
  | other
  deriving DecidableEq, Repr

/-- Python truthiness of a `keep_file_open` value, as used by
`if self._keep_file_open:` in `_get_fileobj` (`'auto'` and `True` are truthy,
`False` is falsy). -/
def KeepVal.truthy : KeepVal → Bool
  | .no => false
  | _ => true

/-- The two observable handle policies of the spec: open a fresh handle per
access, or keep one persistent handle. -/
inductive HandlePolicy
  | alwaysOpenFresh
  | keepOpenPersistent
  deriving DecidableEq, Repr

/-- The policy realized by a stored `_keep_file_open` value: `_get_fileobj`
takes the persistent branch exactly when the value is truthy. -/
def policyOf (v : KeepVal) : HandlePolicy :=
  if v.truthy then .keepOpenPersistent else .alwaysOpenFresh

/-- The `mmap` argument domain `{True, False, 'c', 'r'}` plus any other
(invalid) value. -/
inductive MmapArg
  | yes
  | no
  | c
  | r
  | other
  deriving DecidableEq, Repr

/-- The `file_like` argument: the duck-typing facts probed by the code
(`hasattr(file_like, 'read')`, `hasattr(file_like, 'seek')`) and the string
used by `file_like.endswith('.gz')` when the object is treated as a name
(strings are lists of characters so that the suffix test computes). -/
structure SourceObj where
  hasRead : Bool
  hasSeek : Bool
  name : List Char
  deriving DecidableEq, Repr

/-- Python `str.endswith`. -/
def str_endswith (name suffix : List Char) : Bool :=
  suffix.isSuffixOf name

/-- The characters of `'.gz'`. -/
def gz_suffix : List Char := ['.', 'g', 'z']

/-- Exceptions raised by the embedded code.  `invalidMmap`, `invalidSpec`,
`invalidDtype`, `invalidPolicy` are the `ValueError`/`TypeError` conditions of
`__init__` and `_should_keep_file_open`; `reshapeTooMany` and
`reshapeSizeMismatch` are the two `ValueError` conditions of `reshape`
(the spec's `ReshapeError`); `zeroDiv` is Python's `ZeroDivisionError` from
`size // known_size` when `known_size == 0`. -/
inductive PyErr
  | invalidMmap
  | invalidSpec
  | invalidDtype
  | invalidPolicy
  | reshapeTooMany
  | reshapeSizeMismatch
  | zeroDiv
  deriving DecidableEq, Repr

/-- The two reshape failures are what the spec calls `ReshapeError`. -/
def isReshapeError : PyErr → Bool
  | .reshapeTooMany => true
  | .reshapeSizeMismatch => true
  | _ => false

/-- The module-level global `KEEP_FILE_OPEN_DEFAULT` as shipped (`False`).
The functions below take the current value of the global as the `dflt`
parameter, since the module documents that users may rebind it. -/
def KEEP_FILE_OPEN_DEFAULT : KeepVal := .no

/-- `ArrayProxy._should_keep_file_open(file_like, keep_file_open)` with the
module globals (`openers.HAVE_INDEXED_GZIP` and `KEEP_FILE_OPEN_DEFAULT`)
passed explicitly.  Mirrors, in order: the `None` default resolution, the
membership validation, the `hasattr(read)/hasattr(seek)` handle check, the
`'auto'`-without-indexed-gzip check, and the fall-through return. -/
def should_keep_file_open (haveIndexedGzip : Bool) (dflt : KeepVal)
    (file_like : SourceObj) (keep_file_open : Option KeepVal) :
    Except PyErr KeepVal :=
  let kfo := keep_file_open.getD dflt
  if kfo = .other then
    .error .invalidPolicy
  else if file_like.hasRead && file_like.hasSeek then
    .ok .no
  else if kfo = .auto && !(haveIndexedGzip && str_endswith file_like.name gz_suffix) then
    .ok .no
  else
    .ok kfo

/-- Abstract numpy dtype (the embedding never interprets bytes, so only the
identity of the dtype matters). -/
structure Dtype where
  code : Nat
  deriving DecidableEq, Repr

/-- A dtype specifier as passed in a spec: either something
`numpy.dtype(...)` accepts (normalizing to `d`), or something it rejects. -/
inductive DtypeArg
  | valid (d : Dtype)
  | invalid
  deriving DecidableEq, Repr

/-- `numpy.dtype(arg)`: normalizes a valid specifier, fails on others. -/
def npDtype : DtypeArg → Option Dtype
  | .valid d => some d
  | .invalid => none

/-- A header/descriptor object, exposing `get_data_shape`, `get_data_dtype`,
`get_data_offset`, `get_slope_inter` (either component may be `None`) and
`copy`. -/
structure HeaderObj where
  data_shape : List Int
  data_dtype : DtypeArg
  data_offset : Int
  slope : Option ℚ
  inter : Option ℚ
  deriving DecidableEq, Repr

def HeaderObj.get_data_shape (h : HeaderObj) : List Int := h.data_shape

def HeaderObj.get_data_dtype (h : HeaderObj) : DtypeArg := h.data_dtype

def HeaderObj.get_data_offset (h : HeaderObj) : Int := h.data_offset

def HeaderObj.get_slope_inter (h : HeaderObj) : Option ℚ × Option ℚ :=
  (h.slope, h.inter)

/-- `header.copy()`: a detached copy with the same content. -/
def HeaderObj.copy (h : HeaderObj) : HeaderObj := h

/-- The `spec` argument of `__init__`: a header object (anything exposing
`get_data_shape`), a tuple of length 2-5, or a sequence whose length is
outside 2-5. -/
inductive SpecInput
  | header (h : HeaderObj)
  | tup2 (shape : List Int) (d : DtypeArg)
  | tup3 (shape : List Int) (d : DtypeArg) (offset : Int)
  | tup4 (shape : List Int) (d : DtypeArg) (offset : Int) (slope : ℚ)
  | tup5 (shape : List Int) (d : DtypeArg) (offset : Int) (slope : ℚ) (inter : ℚ)
  | badLength (len : Nat)
  deriving DecidableEq, Repr

/-- The `par` tuple built by `__init__` lines 143-156, together with the
retained header copy (`self._header`). -/
structure ParTuple where
  shape : List Int
  dtypeArg : DtypeArg
  offset : Int
  slope : ℚ
  inter : ℚ
  header : Option HeaderObj
  deriving DecidableEq, Repr

/-- Lines 143-156 of `__init__`: the header branch reads the four getters
(with `None` slope/inter normalized to `1.0`/`0.0`) and retains
`spec.copy()`; a tuple of length 2-5 is padded with the trailing defaults
`(0, 1., 0.)`; anything else raises `TypeError` (the spec's `InvalidSpec`). -/
def resolve_spec (spec : SpecInput) : Except PyErr ParTuple :=
  match spec with
  | .header h =>
      .ok { shape := h.get_data_shape
            dtypeArg := h.get_data_dtype
            offset := h.get_data_offset
            slope := (h.get_slope_inter).1.getD 1
            inter := (h.get_slope_inter).2.getD 0
            header := some h.copy }
  | .tup2 s d => .ok ⟨s, d, 0, 1, 0, none⟩
  | .tup3 s d o => .ok ⟨s, d, o, 1, 0, none⟩
  | .tup4 s d o sl => .ok ⟨s, d, o, sl, 0, none⟩
  | .tup5 s d o sl i => .ok ⟨s, d, o, sl, i, none⟩
  | .badLength _ => .error .invalidSpec

/-- An `ImageOpener` instance: its identity, whether it opened the underlying
file itself (`me_opened`), and whether the underlying file is closed. -/
structure Opener where
  id : Nat
  me_opened : Bool
  closed : Bool
  deriving DecidableEq, Repr

/-- Observable handle bookkeeping: the next fresh opener identity, the log of
`ImageOpener` creations (opener invocations), and the log of actual closes of
files the openers themselves opened. -/
structure World where
  nextId : Nat
  openLog : List Nat
  closeLog : List Nat
  deriving DecidableEq, Repr

def World.init : World := ⟨0, [], []⟩

/-- Modelled from the spec: the `Opener` collaborator
(`nibabel/openers.py`, which is not under `src/`).  `ImageOpener(source, ...)`
opens the file itself exactly when the source is not an already-open stream
(spec section 5: the proxy owns a handle it itself opened and never one that
was handed to it already open); every construction is one opener
invocation, logged in `openLog`. -/
def image_opener (file_like : SourceObj) (w : World) : Opener × World :=
  (⟨w.nextId, !(file_like.hasRead && file_like.hasSeek), false⟩,
   { w with nextId := w.nextId + 1, openLog := w.openLog ++ [w.nextId] })

/-- Modelled from the spec: `close_if_mine` (the spec's `close_if_owned`)
closes the underlying file only if this opener opened it itself; an actual
close is logged once in `closeLog`. -/
def Opener.close_if_mine (op : Opener) (w : World) : Opener × World :=
  if op.me_opened && !op.closed then
    ({ op with closed := true }, { w with closeLog := w.closeLog ++ [op.id] })
  else
    (op, w)

/-- The pickled part of `ArrayProxy.__dict__`: everything except `_lock`.
`file_like`, `_header`, `_shape`, `_dtype`, `_offset`, `_slope`, `_inter`,
`_mmap`, `_keep_file_open`, and the `_opener` attribute when present. -/
structure ProxyCore where
  file_like : SourceObj
  header : Option HeaderObj
  shape : List Int
  dtype : Dtype
  offset : Int
  slope : ℚ
  inter : ℚ
  mmap : MmapArg
  keep_file_open : KeepVal
  opener : Option Opener
  deriving DecidableEq, Repr

/-- A full `ArrayProxy`: the core attributes plus the `_lock` object,
represented by its identity (a fresh `RLock` gets a fresh identity). -/
structure ArrayProxy where
  core : ProxyCore
  lockId : Nat
  deriving DecidableEq, Repr

/-- `ArrayProxy.__init__(file_like, spec, mmap=..., keep_file_open=...)` with
the module globals passed explicitly and `freshLock` the identity of the
newly created `RLock`.  Mirrors, in order: the `mmap` validation, the spec
resolution, the `numpy.dtype` normalization of the stored dtype, and the
`_should_keep_file_open` call.  No handle is opened (`_opener` is absent). -/
def array_proxy_init (haveIndexedGzip : Bool) (dflt : KeepVal)
    (file_like : SourceObj) (spec : SpecInput) (mmap : MmapArg)
    (keep_file_open : Option KeepVal) (freshLock : Nat) :
    Except PyErr ArrayProxy :=
  if mmap = .other then
    .error .invalidMmap
  else
    match resolve_spec spec with
    | .error e => .error e
    | .ok par =>
      match npDtype par.dtypeArg with
      | none => .error .invalidDtype
      | some dt =>
        match should_keep_file_open haveIndexedGzip dflt file_like
          keep_file_open with
        | .error e => .error e
        | .ok kfo =>
          .ok { core := { file_like := file_like
                          header := par.header
                          shape := par.shape
                          dtype := dt
                          offset := par.offset
                          slope := par.slope
                          inter := par.inter
                          mmap := mmap
                          keep_file_open := kfo
                          opener := none }
                lockId := freshLock }

/-- The abstract `array_from_file` collaborator of `get_unscaled`
(`nibabel/volumeutils.py`, not under `src/`): produces the raw array from
`(shape, dtype, offset, mmap)` read through the current handle.  Array
values are modelled as exact rationals. -/
abbrev RawReader := List Int → Dtype → Int → MmapArg → List ℚ

/-- The abstract `fileslice` collaborator of `__getitem__`
(`nibabel/fileslice.py`, not under `src/`): produces the raw sub-array for
the requested slice from `(shape, dtype, offset)`. -/
abbrev RawSlicer := List Int → Dtype → Int → List ℚ

/-- The body of `_get_fileobj` up to its `yield`: under a truthy
`_keep_file_open`, reuse `self._opener` if the attribute exists, else create
it via `ImageOpener` and cache it; otherwise create a fresh `ImageOpener`.
Returns the yielded opener, the updated proxy attributes and the world. -/
def get_fileobj_enter (p : ProxyCore) (w : World) :
    Opener × ProxyCore × World :=
  if p.keep_file_open.truthy then
    match p.opener with
    | some op => (op, p, w)
    | none =>
        let (op, w') := image_opener p.file_like w
        (op, { p with opener := some op }, w')
  else
    let (op, w') := image_opener p.file_like w
    (op, p, w')

/-- The end of the `_get_fileobj` scope: the persistent branch yields the
cached opener and keeps it open; the fresh branch leaves the
`with ImageOpener(...)` block, whose exit invokes `close_if_mine`. -/
def get_fileobj_exit (p : ProxyCore) (op : Opener) (w : World) : World :=
  if p.keep_file_open.truthy then w
  else (op.close_if_mine w).2

/-- One read operation's handle lifecycle (the `_get_fileobj` scope entered
by `get_unscaled` or `__getitem__`): acquire the scoped opener, use it, end
the scope.  Returns the updated attributes, the world and the identity of
the handle that served the read. -/
def read_op (p : ProxyCore) (w : World) : ProxyCore × World × Nat :=
  let (op, p', w') := get_fileobj_enter p w
  let w'' := get_fileobj_exit p' op w'
  (p', w'', op.id)

/-- `n` sequential read operations; also returns the handle identity used by
each read, in order. -/
def read_n : Nat → ProxyCore → World → ProxyCore × World × List Nat
  | 0, p, w => (p, w, [])
  | n + 1, p, w =>
      let (p', w', i) := read_op p w
      let (p'', w'', is) := read_n n p' w'
      (p'', w'', i :: is)

/-- `get_unscaled`: acquire the scoped handle, then (under `self._lock`)
delegate to `array_from_file(self._shape, self._dtype, fileobj,
offset=self._offset, order=self.order, mmap=self._mmap)`. -/
def get_unscaled (reader : RawReader) (p : ProxyCore) (w : World) :
    List ℚ × ProxyCore × World :=
  let (op, p', w') := get_fileobj_enter p w
  let raw := reader p'.shape p'.dtype p'.offset p'.mmap
  let w'' := get_fileobj_exit p' op w'
  (raw, p', w'')

/-- Modelled from the spec: `apply_read_scaling`
(`nibabel/volumeutils.py`, not under `src/`): return the array unchanged when
`(slope, inter) == (1, 0)`, else apply `raw * slope + inter` element-wise
(upcasting is invisible here because values are exact rationals). -/
def apply_read_scaling (arr : List ℚ) (slope inter : ℚ) : List ℚ :=
  if slope = 1 ∧ inter = 0 then arr
  else arr.map fun x => x * slope + inter

/-- `__array__`: read the raw array via `get_unscaled`, then scale with
`apply_read_scaling(raw_data, self._slope, self._inter)`. -/
def array_op (reader : RawReader) (p : ProxyCore) (w : World) :
    List ℚ × ProxyCore × World :=
  let (raw, p', w') := get_unscaled reader p w
  (apply_read_scaling raw p'.slope p'.inter, p', w')

/-- `__getitem__`: acquire the scoped handle, delegate to
`fileslice(fileobj, slicer, self._shape, self._dtype, self._offset,
order=self.order, lock=self._lock)`, then scale the sub-array. -/
def getitem_op (slicer : RawSlicer) (p : ProxyCore) (w : World) :
    List ℚ × ProxyCore × World :=
  let (op, p', w') := get_fileobj_enter p w
  let raw := slicer p'.shape p'.dtype p'.offset
  let w'' := get_fileobj_exit p' op w'
  (apply_read_scaling raw p'.slope p'.inter, p', w'')

/-- The `__dict__` of an `ArrayProxy` as manipulated by pickling: the core
attributes plus the `_lock` entry when present. -/
structure ProxyDict where
  core : ProxyCore
  lock : Option Nat
  deriving DecidableEq, Repr

/-- `ArrayProxy.__getstate__`: `state = self.__dict__.copy()` followed by
`state.pop('_lock', None)`.  Nothing else is removed. -/
def getstate (p : ArrayProxy) : ProxyDict :=
  { core := p.core, lock := none }

/-- `ArrayProxy.__setstate__`: `self.__dict__.update(state)` followed by
`self._lock = RLock()`, the fresh lock having identity `freshLock`. -/
def setstate (state : ProxyDict) (freshLock : Nat) : ArrayProxy :=
  ⟨state.core, freshLock⟩

/-- `ArrayProxy.__del__`: if the `_opener` attribute exists and the opener is
not closed, call `close_if_mine` and set the attribute to `None`
(modelled as clearing it). -/
def del_op (p : ProxyCore) (w : World) : ProxyCore × World :=
  match p.opener with
  | none => (p, w)
  | some op =>
      if op.closed then (p, w)
      else
        let (_, w') := op.close_if_mine w
        ({ p with opener := none }, w')

/-- `ArrayProxy.reshape`: `size = np.prod(self._shape)`; count the `-1`
placeholders; more than one raises; exactly one is resolved by
`known_size = reduce(mul, shape, -1)` followed by Python floor division
`size // known_size` (a zero `known_size` raises `ZeroDivisionError`);
a final element-count mismatch raises; otherwise a new proxy is built with
`spec=(shape, self._dtype, self._offset, self._slope, self._inter)` and
`mmap=self._mmap` — `keep_file_open` is not passed, so the child resolves
it from the defaults. -/
def reshape_op (haveIndexedGzip : Bool) (dflt : KeepVal) (p : ProxyCore)
    (shape : List Int) (freshLock : Nat) : Except PyErr ArrayProxy :=
  let size : Int := p.shape.prod
  let n_unknowns := shape.count (-1)
  if n_unknowns > 1 then
    .error .reshapeTooMany
  else
    let resolved : Except PyErr (List Int) :=
      if n_unknowns = 1 then
        let known_size := shape.foldl (· * ·) (-1)
        if known_size = 0 then
          .error .zeroDiv
        else
          let unknown_size := Int.fdiv size known_size
          .ok (shape.map fun e => if e = -1 then unknown_size else e)
      else
        .ok shape
    match resolved with
    | .error e => .error e
    | .ok shape2 =>
      if shape2.prod ≠ size then
        .error .reshapeSizeMismatch
      else
        array_proxy_init haveIndexedGzip dflt p.file_like
          (.tup5 shape2 (.valid p.dtype) p.offset p.slope p.inter)
          p.mmap none freshLock

/-- `is_proxy(obj)`: probing `obj.is_proxy` succeeds for proxies (always
`True`); absence of the attribute means not a proxy. -/
def is_proxy_check (hasAttr : Bool) (value : Bool) : Bool :=
  if hasAttr then value else false

/-- A mutable cell holding the caller's header object, to make external
mutation after construction expressible. -/
structure DescCell where
  value : HeaderObj
  deriving DecidableEq, Repr

/-- The caller mutates its own header object in place. -/
def mutate_desc (f : HeaderObj → HeaderObj) (c : DescCell) : DescCell :=
  ⟨f c.value⟩

/-- Construct a proxy from the caller's header cell, then let the caller
mutate the cell; returns the mutated cell and the constructed proxy. -/
def construct_then_mutate (haveIndexedGzip : Bool) (dflt : KeepVal)
    (file_like : SourceObj) (h : HeaderObj) (mmap : MmapArg)
    (keep_file_open : Option KeepVal) (freshLock : Nat)
    (f : HeaderObj → HeaderObj) : DescCell × Except PyErr ArrayProxy :=
  let cell : DescCell := ⟨h⟩
  let r := array_proxy_init haveIndexedGzip dflt file_like
    (.header cell.value) mmap keep_file_open freshLock
  let cell' := mutate_desc f cell
  (cell', r)

/-- Everything observable about a constructed proxy: the five read-only
attributes, the retained header, and the result of a full materialization. -/
def observe_proxy (reader : RawReader) (w : World)
    (r : Except PyErr ArrayProxy) :
    Except PyErr (List Int × Dtype × Int × ℚ × ℚ × Option HeaderObj × List ℚ) :=
  r.map fun p =>
    (p.core.shape, p.core.dtype, p.core.offset, p.core.slope, p.core.inter,
     p.core.header, (array_op reader p.core w).1)

/-- `_get_fileobj`'s persistent branch with the `ImageOpener` constructor
allowed to fail (`ok = false` means the constructor raised): the attribute
assignment only happens after the constructor returned, so a failure leaves
`_opener` exactly as it was. -/
def get_fileobj_enter_try (ok : Bool) (p : ProxyCore) (w : World) :
    Option Opener × ProxyCore × World :=
  if p.keep_file_open.truthy then
    match p.opener with
    | some op => (some op, p, w)
    | none =>
        if ok then
          let (op, w') := image_opener p.file_like w
          (some op, { p with opener := some op }, w')
        else
          (none, p, w)
  else
    if ok then
      let (op, w') := image_opener p.file_like w
      (some op, p, w')
    else
      (none, p, w)

/-- One thread executing `get_unscaled` on a shared proxy with a truthy
`_keep_file_open`, broken into its atomic steps:
pc 0: evaluate `hasattr(self, '_opener')`;
pc 1: if the attribute was absent, construct the `ImageOpener` and assign it;
pc 2: `yield self._opener` (re-read the attribute);
pc 3: acquire `self._lock` (blocks while the other thread holds it);
pc 4: perform the raw read and release the lock;
pc 5: done. -/
structure GfThread where
  pc : Nat
  sawOpener : Bool
  handle : Option Nat
  deriving DecidableEq, Repr

/-- The state shared by the two threads: the proxy's `_opener` attribute
(by identity), the fresh-identity counter, the number of `ImageOpener`
constructions performed so far, and the lock owner. -/
structure GfShared where
  opener : Option Nat
  nextId : Nat
  opens : Nat
  lockOwner : Option Bool
  deriving DecidableEq, Repr

/-- The two threads plus the shared state. -/
structure GfMachine where
  t0 : GfThread
  t1 : GfThread
  sh : GfShared
  deriving DecidableEq, Repr

def gf_thread_init : GfThread := ⟨0, false, none⟩

/-- Both threads about to perform their first access; no handle exists. -/
def gf_machine_init : GfMachine :=
  ⟨gf_thread_init, gf_thread_init, ⟨none, 0, 0, none⟩⟩

/-- One atomic step of thread `who` (see `GfThread` for the step meanings).
The creation step (pc 1) mirrors `self._opener = openers.ImageOpener(...)`;
the lock is touched only at pc 3 and pc 4, matching
`with self._get_fileobj() as fileobj, self._lock:` where the generator body
runs before the lock is acquired. -/
def gf_step_thread (who : Bool) (t : GfThread) (sh : GfShared) :
    GfThread × GfShared :=
  match t.pc with
  | 0 => ({ t with sawOpener := sh.opener.isSome, pc := 1 }, sh)
  | 1 =>
      if t.sawOpener then
        ({ t with pc := 2 }, sh)
      else
        ({ t with pc := 2 },
         { sh with opener := some sh.nextId, nextId := sh.nextId + 1,
                   opens := sh.opens + 1 })
  | 2 => ({ t with handle := sh.opener, pc := 3 }, sh)
  | 3 =>
      match sh.lockOwner with
      | none => ({ t with pc := 4 }, { sh with lockOwner := some who })
      | some owner =>
          if owner = who then ({ t with pc := 4 }, sh) else (t, sh)
  | 4 => ({ t with pc := 5 }, { sh with lockOwner := none })
  | _ => (t, sh)

/-- Run one scheduled step: `false` steps thread 0, `true` steps thread 1. -/
def gf_step (m : GfMachine) (who : Bool) : GfMachine :=
  if who then
    let ts := gf_step_thread true m.t1 m.sh
    { m with t1 := ts.1, sh := ts.2 }
  else
    let ts := gf_step_thread false m.t0 m.sh
    { m with t0 := ts.1, sh := ts.2 }

/-- Run a whole schedule from the initial machine. -/
def gf_run (sched : List Bool) : GfMachine :=
  sched.foldl gf_step gf_machine_init

/-- The thread selected by a scheduler entry. -/
def gf_thread (who : Bool) (m : GfMachine) : GfThread :=
  if who then m.t1 else m.t0

/-! ## Helper lemmas -/

/-- `apply_read_scaling` always equals the element-wise affine map: the
`(slope, inter) == (1, 0)` shortcut never changes observable values. -/
theorem apply_read_scaling_eq_map (arr : List ℚ) (slope inter : ℚ) :
    apply_read_scaling arr slope inter = arr.map fun x => x * slope + inter := by
  unfold apply_read_scaling
  split
  · rename_i hcase
    obtain ⟨h1, h0⟩ := hcase
    subst h1
    subst h0
    simp
  · rfl

/-- `apply_read_scaling` with identity coefficients is the identity. -/
theorem apply_read_scaling_id (arr : List ℚ) : apply_read_scaling arr 1 0 = arr := by
  unfold apply_read_scaling
  simp

/-- `_get_fileobj` only ever touches the `_opener` attribute: all other
attributes of the proxy are unchanged. -/
theorem get_fileobj_enter_core (p : ProxyCore) (w : World) :
    ∃ o, (get_fileobj_enter p w).2.1 = { p with opener := o } := by
  unfold get_fileobj_enter
  by_cases ht : p.keep_file_open.truthy
  · cases hop : p.opener with
    | some op =>
        refine ⟨some op, ?_⟩
        have hpe : { p with opener := some op } = p := by rw [← hop]
        rw [hpe]
        simp [ht, hop]
    | none =>
        refine ⟨some ((image_opener p.file_like w).1), ?_⟩
        simp [ht, hop]
  · refine ⟨p.opener, ?_⟩
    simp [ht]

/-- `_should_keep_file_open` with an explicit `keep_file_open=False` always
returns `False`. -/
theorem should_keep_no (haveIndexedGzip : Bool) (dflt : KeepVal)
    (src : SourceObj) :
    should_keep_file_open haveIndexedGzip dflt src (some .no) = .ok .no := by
  simp [should_keep_file_open]

/-- With a recognized requested mode, `_should_keep_file_open` never raises. -/
theorem should_keep_ok (haveIndexedGzip : Bool) (dflt : KeepVal)
    (src : SourceObj) (arg : Option KeepVal)
    (hvalid : arg.getD dflt ≠ KeepVal.other) :
    ∃ v, should_keep_file_open haveIndexedGzip dflt src arg = .ok v := by
  unfold should_keep_file_open
  simp only [hvalid, if_false]
  split
  · exact ⟨_, rfl⟩
  · split
    · exact ⟨_, rfl⟩
    · exact ⟨_, rfl⟩

/-- Inversion for a successful `__init__`: how every stored attribute is
derived from the arguments. -/
theorem array_proxy_init_ok (haveIndexedGzip : Bool) (dflt : KeepVal)
    (src : SourceObj) (spec : SpecInput) (mmap : MmapArg)
    (keep : Option KeepVal) (lk : Nat) (q : ArrayProxy)
    (hq : array_proxy_init haveIndexedGzip dflt src spec mmap keep lk = .ok q) :
    q.core.file_like = src
  ∧ q.core.mmap = mmap
  ∧ q.core.opener = none
  ∧ q.lockId = lk
  ∧ should_keep_file_open haveIndexedGzip dflt src keep
      = .ok q.core.keep_file_open
  ∧ ∃ par, resolve_spec spec = .ok par
      ∧ npDtype par.dtypeArg = some q.core.dtype
      ∧ q.core.shape = par.shape
      ∧ q.core.offset = par.offset
      ∧ q.core.slope = par.slope
      ∧ q.core.inter = par.inter
      ∧ q.core.header = par.header := by
  unfold array_proxy_init at hq
  by_cases hm : mmap = MmapArg.other
  · simp [hm] at hq
  · simp only [hm, if_false] at hq
    cases hres : resolve_spec spec with
    | error e => simp [hres] at hq
    | ok par =>
        simp only [hres] at hq
        cases hdt : npDtype par.dtypeArg with
        | none => simp [hdt] at hq
        | some dt =>
            simp only [hdt] at hq
            cases hk : should_keep_file_open haveIndexedGzip dflt src keep with
            | error e => simp [hk] at hq
            | ok kfo =>
                simp only [hk] at hq
                cases hq
                exact ⟨rfl, rfl, rfl, rfl, rfl,
                       ⟨par, rfl, hdt, rfl, rfl, rfl, rfl, rfl⟩⟩

/-! ## Claim C3 -/

/-- Claim C3: the handle-policy decision applies its three rules in order for
every source and recognized requested mode: an already-open stream (exposing
`read` and `seek`) always yields `False` (the `AlwaysOpenFresh` policy)
whatever the mode; otherwise `'auto'` without indexed-gzip support for the
source name yields `False`; otherwise the requested mode is returned
unchanged, with `'auto'` plus available support realizing the
`KeepOpenPersistent` policy. -/
theorem c3_policy_rules (haveIndexedGzip : Bool) (dflt : KeepVal)
    (src : SourceObj) (arg : Option KeepVal)
    (hvalid : arg.getD dflt ≠ KeepVal.other) :
    ((src.hasRead && src.hasSeek) = true →
        should_keep_file_open haveIndexedGzip dflt src arg = .ok .no
        ∧ (should_keep_file_open haveIndexedGzip dflt src arg).map policyOf
            = .ok .alwaysOpenFresh)
  ∧ ((src.hasRead && src.hasSeek) = false → arg.getD dflt = .auto →
        (haveIndexedGzip && str_endswith src.name gz_suffix) = false →
        should_keep_file_open haveIndexedGzip dflt src arg = .ok .no)
  ∧ ((src.hasRead && src.hasSeek) = false →
        (arg.getD dflt = .auto →
          (haveIndexedGzip && str_endswith src.name gz_suffix) = true) →
        should_keep_file_open haveIndexedGzip dflt src arg
          = .ok (arg.getD dflt))
  ∧ ((src.hasRead && src.hasSeek) = false → arg.getD dflt = .auto →
        (haveIndexedGzip && str_endswith src.name gz_suffix) = true →
        (should_keep_file_open haveIndexedGzip dflt src arg).map policyOf
          = .ok .keepOpenPersistent) := by
  refine ⟨?_, ?_, ?_, ?_⟩
  · intro h
    simp [should_keep_file_open, h, hvalid, policyOf, KeepVal.truthy,
          Except.map]
  · intro h1 h2 h3
    simp [should_keep_file_open, h1, h2, h3, hvalid]
  · intro h1 h2
    by_cases ha : arg.getD dflt = KeepVal.auto
    · simp [should_keep_file_open, h1, ha, h2 ha, hvalid]
    · simp [should_keep_file_open, h1, ha, hvalid]
  · intro h1 h2 h3
    simp [should_keep_file_open, h1, h2, h3, hvalid, policyOf, KeepVal.truthy,
          Except.map]

/-- Witness for C3 at a concrete gzip path with indexed-gzip available and
requested mode `'auto'`: the decision keeps `'auto'` (a truthy value, hence
the persistent policy). -/
theorem c3_policy_rules_witness :
    should_keep_file_open true KeepVal.no ⟨false, false, ['x', '.', 'g', 'z']⟩
        (some KeepVal.auto) = .ok KeepVal.auto
    ∧ (should_keep_file_open true KeepVal.no
        ⟨false, false, ['x', '.', 'g', 'z']⟩ (some KeepVal.auto)).map policyOf
        = .ok .keepOpenPersistent := by
  have h := c3_policy_rules true KeepVal.no ⟨false, false, ['x', '.', 'g', 'z']⟩
    (some KeepVal.auto) (by decide)
  exact ⟨h.2.2.1 (by decide) (fun _ => by decide),
         h.2.2.2 (by decide) (by decide) (by decide)⟩

/-! ## Claim C5 -/

/-- Claim C5: for every raw array delivered by the external reader/slicer and
every slope and inter, full materialization (`__array__`) and slice access
(`__getitem__`) return `raw * slope + inter` element-wise, and when
`slope == 1.0 and inter == 0.0` the raw array is returned unchanged, so the
skip-the-transformation branch never changes observable values.  Values are
exact rationals, so equality is exact ("bit-for-bit"). -/
theorem c5_scaling (reader : RawReader) (slicer : RawSlicer) (p : ProxyCore)
    (w : World) :
    (array_op reader p w).1
      = (reader p.shape p.dtype p.offset p.mmap).map
          (fun x => x * p.slope + p.inter)
  ∧ (getitem_op slicer p w).1
      = (slicer p.shape p.dtype p.offset).map
          (fun x => x * p.slope + p.inter)
  ∧ (p.slope = 1 → p.inter = 0 →
      (array_op reader p w).1 = reader p.shape p.dtype p.offset p.mmap
      ∧ (getitem_op slicer p w).1 = slicer p.shape p.dtype p.offset) := by
  obtain ⟨o, ho⟩ := get_fileobj_enter_core p w
  refine ⟨?_, ?_, ?_⟩
  · simp [array_op, get_unscaled, ho, apply_read_scaling_eq_map]
  · simp [getitem_op, ho, apply_read_scaling_eq_map]
  · intro h1 h0
    constructor
    · simp [array_op, get_unscaled, ho, h1, h0, apply_read_scaling_id]
    · simp [getitem_op, ho, h1, h0, apply_read_scaling_id]

/-- Witness for C5 on the spec's concrete scenario coefficients
(`slope 2`, `inter 100`, raw values `0` and `1`), plus the identity case. -/
theorem c5_scaling_witness :
    (array_op (fun _ _ _ _ => [0, 1])
        { file_like := ⟨false, false, ['x']⟩, header := none, shape := [2],
          dtype := ⟨0⟩, offset := 0, slope := 2, inter := 100, mmap := .yes,
          keep_file_open := .no, opener := none } World.init).1 = [100, 102]
  ∧ (array_op (fun _ _ _ _ => [0, 1])
        { file_like := ⟨false, false, ['x']⟩, header := none, shape := [2],
          dtype := ⟨0⟩, offset := 0, slope := 1, inter := 0, mmap := .yes,
          keep_file_open := .no, opener := none } World.init).1 = [0, 1] := by
  constructor
  · have h := c5_scaling (fun _ _ _ _ => [0, 1]) (fun _ _ _ => [])
      { file_like := ⟨false, false, ['x']⟩, header := none, shape := [2],
        dtype := ⟨0⟩, offset := 0, slope := 2, inter := 100, mmap := .yes,
        keep_file_open := .no, opener := none } World.init
    rw [h.1]
    norm_num
  · have h := c5_scaling (fun _ _ _ _ => [0, 1]) (fun _ _ _ => [])
      { file_like := ⟨false, false, ['x']⟩, header := none, shape := [2],
        dtype := ⟨0⟩, offset := 0, slope := 1, inter := 0, mmap := .yes,
        keep_file_open := .no, opener := none } World.init
    exact (h.2.2 rfl rfl).1

/-! ## Claim C9 -/

/-- Claim C9: teardown releases an owned persistent handle exactly once and
never closes a caller-owned one: `__del__` acts only when a cached opener
exists and is not already closed; it closes only through `close_if_mine`
(so a handle the opener did not itself open is never actually closed); it
then clears the cached reference, and running teardown again changes
nothing, so no second close of the same handle can occur. -/
theorem c9_teardown (p : ProxyCore) (w : World) :
    (p.opener = none → del_op p w = (p, w))
  ∧ (∀ op, p.opener = some op → op.closed = true → del_op p w = (p, w))
  ∧ (∀ op, p.opener = some op → op.closed = false →
        (del_op p w).1.opener = none
      ∧ (op.me_opened = true →
          (del_op p w).2.closeLog = w.closeLog ++ [op.id])
      ∧ (op.me_opened = false → (del_op p w).2 = w))
  ∧ del_op (del_op p w).1 (del_op p w).2 = del_op p w := by
  refine ⟨?_, ?_, ?_, ?_⟩
  · intro h
    simp [del_op, h]
  · intro op hop hcl
    simp [del_op, hop, hcl]
  · intro op hop hcl
    refine ⟨?_, ?_, ?_⟩
    · simp [del_op, hop, hcl, Opener.close_if_mine]
    · intro hmine
      simp [del_op, hop, hcl, Opener.close_if_mine, hmine]
    · intro hmine
      simp [del_op, hop, hcl, Opener.close_if_mine, hmine]
  · cases hop : p.opener with
    | none => simp [del_op, hop]
    | some op =>
        by_cases hcl : op.closed
        · simp [del_op, hop, hcl]
        · simp [del_op, hop, hcl, Opener.close_if_mine]

/-- Witness for C9: a proxy owning open handle 3 closes it exactly once at
teardown and clears the reference. -/
theorem c9_teardown_witness :
    (del_op { file_like := ⟨false, false, ['x']⟩, header := none, shape := [1],
              dtype := ⟨0⟩, offset := 0, slope := 1, inter := 0, mmap := .yes,
              keep_file_open := .yes, opener := some ⟨3, true, false⟩ }
       World.init).1.opener = none
  ∧ (del_op { file_like := ⟨false, false, ['x']⟩, header := none, shape := [1],
              dtype := ⟨0⟩, offset := 0, slope := 1, inter := 0, mmap := .yes,
              keep_file_open := .yes, opener := some ⟨3, true, false⟩ }
       World.init).2.closeLog = [3] := by
  have h := c9_teardown
    { file_like := ⟨false, false, ['x']⟩, header := none, shape := [1],
      dtype := ⟨0⟩, offset := 0, slope := 1, inter := 0, mmap := .yes,
      keep_file_open := .yes, opener := some ⟨3, true, false⟩ } World.init
  have h3 := h.2.2.1 ⟨3, true, false⟩ rfl rfl
  exact ⟨h3.1, h3.2.1 rfl⟩

/-! ## Claim C8 -/

/-- Claim C8: a proxy constructed from a descriptor object is isolated from
later mutation of that descriptor: two runs that mutate the caller's
descriptor differently after construction observe identical shape, dtype,
offset, slope, inter, retained header, and identical full-read results,
because `__init__` copies the getter values out and retains `spec.copy()`;
moreover the retained header is the construction-time copy. -/
theorem c8_descriptor_isolation (haveIndexedGzip : Bool) (dflt : KeepVal)
    (src : SourceObj) (h : HeaderObj) (mmap : MmapArg)
    (keep : Option KeepVal) (lk : Nat) (reader : RawReader) (w : World)
    (f g : HeaderObj → HeaderObj) :
    observe_proxy reader w
        (construct_then_mutate haveIndexedGzip dflt src h mmap keep lk f).2
      = observe_proxy reader w
          (construct_then_mutate haveIndexedGzip dflt src h mmap keep lk g).2
  ∧ (∀ q, (construct_then_mutate haveIndexedGzip dflt src h mmap keep lk f).2
        = .ok q → q.core.header = some h.copy) := by
  constructor
  · rfl
  · intro q hq
    obtain ⟨-, -, -, -, -, par, hres, -, -, -, -, -, hhd⟩ :=
      array_proxy_init_ok haveIndexedGzip dflt src (.header h) mmap keep lk
        q hq
    cases hres
    exact hhd

/-- Witness for C8: two different mutations of a concrete descriptor leave a
constructed proxy's observations identical, and the retained header is the
construction-time copy. -/
theorem c8_descriptor_isolation_witness :
    observe_proxy (fun _ _ _ _ => [5]) World.init
        (construct_then_mutate true KeepVal.no ⟨false, false, ['x']⟩
          ⟨[4], .valid ⟨2⟩, 0, none, none⟩ .yes (some .no) 1
          (fun d => { d with data_offset := 99 })).2
      = observe_proxy (fun _ _ _ _ => [5]) World.init
          (construct_then_mutate true KeepVal.no ⟨false, false, ['x']⟩
            ⟨[4], .valid ⟨2⟩, 0, none, none⟩ .yes (some .no) 1
            (fun d => { d with data_shape := [] })).2
  ∧ (⟨⟨⟨false, false, ['x']⟩, some ⟨[4], .valid ⟨2⟩, 0, none, none⟩, [4],
        ⟨2⟩, 0, 1, 0, .yes, .no, none⟩, 1⟩ : ArrayProxy).core.header
      = some (HeaderObj.copy ⟨[4], .valid ⟨2⟩, 0, none, none⟩) := by
  have h := c8_descriptor_isolation true KeepVal.no ⟨false, false, ['x']⟩
    ⟨[4], .valid ⟨2⟩, 0, none, none⟩ .yes (some .no) 1
    (fun _ _ _ _ => [5]) World.init
    (fun d => { d with data_offset := 99 })
    (fun d => { d with data_shape := [] })
  exact ⟨h.1, h.2 _ rfl⟩

/-! ## Claim C7 -/

/-- Claim C7: the spec resolver accepts tuples of length 2-5, defaulting
offset to `0`, slope to `1.0` and inter to `0.0` for the omitted trailing
elements, and descriptor objects, normalizing an unset slope or inter to
`1.0`/`0.0` and the dtype through `numpy.dtype`; a sequence whose length is
outside 2-5 (and which lacks the descriptor capability set) fails with the
`InvalidSpec` condition, and a dtype specifier that cannot be normalized
fails with the `InvalidDtype` condition.  (`mmap=True` and
`keep_file_open=False` are fixed so that only the spec argument varies.) -/
theorem c7_spec_resolver (haveIndexedGzip : Bool) (dflt : KeepVal)
    (src : SourceObj) (s : List Int) (d : Dtype) (o : Int) (sl i : ℚ)
    (h : HeaderObj) (dt : Dtype) (n : Nat) (lk : Nat)
    (hdt : npDtype h.data_dtype = some dt) :
    array_proxy_init haveIndexedGzip dflt src (.tup2 s (.valid d)) .yes
        (some .no) lk
      = .ok ⟨⟨src, none, s, d, 0, 1, 0, .yes, .no, none⟩, lk⟩
  ∧ array_proxy_init haveIndexedGzip dflt src (.tup3 s (.valid d) o) .yes
        (some .no) lk
      = .ok ⟨⟨src, none, s, d, o, 1, 0, .yes, .no, none⟩, lk⟩
  ∧ array_proxy_init haveIndexedGzip dflt src (.tup4 s (.valid d) o sl) .yes
        (some .no) lk
      = .ok ⟨⟨src, none, s, d, o, sl, 0, .yes, .no, none⟩, lk⟩
  ∧ array_proxy_init haveIndexedGzip dflt src (.tup5 s (.valid d) o sl i) .yes
        (some .no) lk
      = .ok ⟨⟨src, none, s, d, o, sl, i, .yes, .no, none⟩, lk⟩
  ∧ array_proxy_init haveIndexedGzip dflt src (.header h) .yes (some .no) lk
      = .ok ⟨⟨src, some h.copy, h.data_shape, dt, h.data_offset,
              h.slope.getD 1, h.inter.getD 0, .yes, .no, none⟩, lk⟩
  ∧ array_proxy_init haveIndexedGzip dflt src (.badLength n) .yes
        (some .no) lk
      = .error .invalidSpec
  ∧ array_proxy_init haveIndexedGzip dflt src (.tup2 s .invalid) .yes
        (some .no) lk
      = .error .invalidDtype := by
  have hsk := should_keep_no haveIndexedGzip dflt src
  refine ⟨?_, ?_, ?_, ?_, ?_, ?_, ?_⟩
  · simp [array_proxy_init, resolve_spec, npDtype, hsk]
  · simp [array_proxy_init, resolve_spec, npDtype, hsk]
  · simp [array_proxy_init, resolve_spec, npDtype, hsk]
  · simp [array_proxy_init, resolve_spec, npDtype, hsk]
  · simp only [array_proxy_init, resolve_spec, HeaderObj.get_data_shape,
      HeaderObj.get_data_dtype, HeaderObj.get_data_offset,
      HeaderObj.get_slope_inter, HeaderObj.copy, hdt, hsk]
    simp
  · simp [array_proxy_init, resolve_spec]
  · simp [array_proxy_init, resolve_spec, npDtype, hsk]

/-- Witness for C7: a concrete length-2 tuple gets offset `0`, slope `1`,
inter `0`; a concrete header with unset slope and inter resolves them to
`1` and `0`. -/
theorem c7_spec_resolver_witness :
    array_proxy_init true KeepVal.no ⟨false, false, ['x']⟩
        (.tup2 [2, 3] (.valid ⟨7⟩)) .yes (some .no) 4
      = .ok ⟨⟨⟨false, false, ['x']⟩, none, [2, 3], ⟨7⟩, 0, 1, 0, .yes, .no,
              none⟩, 4⟩
  ∧ array_proxy_init true KeepVal.no ⟨false, false, ['x']⟩
        (.header ⟨[5], .valid ⟨7⟩, 352, none, none⟩) .yes (some .no) 4
      = .ok ⟨⟨⟨false, false, ['x']⟩,
              some (HeaderObj.copy ⟨[5], .valid ⟨7⟩, 352, none, none⟩), [5],
              ⟨7⟩, 352, 1, 0, .yes, .no, none⟩, 4⟩ := by
  have h := c7_spec_resolver true KeepVal.no ⟨false, false, ['x']⟩ [2, 3]
    ⟨7⟩ 0 1 0 ⟨[5], .valid ⟨7⟩, 352, none, none⟩ ⟨7⟩ 0 4 rfl
  exact ⟨h.1, h.2.2.2.2.1⟩

/-! ## Claim C4 -/

/-- Under a truthy `_keep_file_open` with a cached opener, a read reuses the
cache: no attribute, world, or log change, and the cached handle serves. -/
theorem read_op_cached (p : ProxyCore) (op : Opener) (w : World)
    (ht : p.keep_file_open.truthy = true) (hop : p.opener = some op) :
    read_op p w = (p, w, op.id) := by
  simp [read_op, get_fileobj_enter, get_fileobj_exit, ht, hop]

/-- Under a truthy `_keep_file_open` with a cached opener, `n` reads change
nothing and all reads use the cached handle. -/
theorem read_n_cached (n : Nat) (p : ProxyCore) (op : Opener) (w : World)
    (ht : p.keep_file_open.truthy = true) (hop : p.opener = some op) :
    read_n n p w = (p, w, List.replicate n op.id) := by
  induction n with
  | zero => simp [read_n]
  | succ m ih =>
      simp [read_n, read_op_cached p op w ht hop, ih, List.replicate_succ]

/-- Under a truthy `_keep_file_open` with no opener yet, the first read
creates and caches one `ImageOpener` and leaves it open. -/
theorem read_op_first (p : ProxyCore) (w : World)
    (ht : p.keep_file_open.truthy = true) (hop : p.opener = none) :
    read_op p w =
      ({ p with opener := some (Opener.mk w.nextId
           (!(p.file_like.hasRead && p.file_like.hasSeek)) false) },
       { w with nextId := w.nextId + 1, openLog := w.openLog ++ [w.nextId] },
       w.nextId) := by
  simp [read_op, get_fileobj_enter, get_fileobj_exit, image_opener, ht, hop]

/-- Under a falsy `_keep_file_open`, `n` reads create `n` fresh openers with
consecutive identities, each invoking `close_if_mine` at its scope end (so
each handle the operation itself opened ends closed); the proxy attributes
never change. -/
theorem read_n_fresh (n : Nat) (p : ProxyCore) (w : World)
    (hf : p.keep_file_open.truthy = false) :
    read_n n p w =
      (p,
       { nextId := w.nextId + n,
         openLog := w.openLog ++ List.range' w.nextId n,
         closeLog := w.closeLog ++
           (if p.file_like.hasRead && p.file_like.hasSeek then []
            else List.range' w.nextId n) },
       List.range' w.nextId n) := by
  induction n generalizing w with
  | zero =>
      simp [read_n]
  | succ m ih =>
      by_cases hh : (p.file_like.hasRead && p.file_like.hasSeek) = true
      · simp only [read_n, read_op, get_fileobj_enter, get_fileobj_exit,
          image_opener, Opener.close_if_mine, hf, hh]
        simp [ih, hh, hf, List.range'_succ, List.append_assoc, Nat.add_comm,
          Nat.add_left_comm, Nat.add_assoc]
      · simp only [Bool.not_eq_true] at hh
        simp only [read_n, read_op, get_fileobj_enter, get_fileobj_exit,
          image_opener, Opener.close_if_mine, hf, hh]
        simp [ih, hh, hf, List.range'_succ, List.append_assoc, Nat.add_comm,
          Nat.add_left_comm, Nat.add_assoc]

/-- Claim C4: the persistent handle is lazy and reused: a freshly constructed
proxy has no opener; under a truthy `_keep_file_open` (the
`KeepOpenPersistent` policy) the first of `n >= 1` sequential reads performs
the only opener invocation and every read is served by that same handle;
under the fresh policy `n` reads perform `n` opener invocations with
distinct handles, and every handle that a read itself opened (always the
case for a path source) is closed when the read's scope ends. -/
theorem c4_lazy_persistent (haveIndexedGzip : Bool) (dflt : KeepVal)
    (src : SourceObj) (spec : SpecInput) (mmap : MmapArg)
    (keep : Option KeepVal) (lk : Nat) (q : ArrayProxy)
    (p : ProxyCore) (w : World) (n : Nat) :
    (array_proxy_init haveIndexedGzip dflt src spec mmap keep lk = .ok q →
        q.core.opener = none)
  ∧ (p.keep_file_open.truthy = true → p.opener = none →
        (read_n (n + 1) p w).2.1.openLog = w.openLog ++ [w.nextId]
        ∧ (read_n (n + 1) p w).2.2 = List.replicate (n + 1) w.nextId)
  ∧ (p.keep_file_open.truthy = false →
        (read_n n p w).2.1.openLog = w.openLog ++ List.range' w.nextId n
        ∧ (read_n n p w).2.2 = List.range' w.nextId n
        ∧ (read_n n p w).1 = p
        ∧ ((p.file_like.hasRead && p.file_like.hasSeek) = false →
            (read_n n p w).2.1.closeLog
              = w.closeLog ++ List.range' w.nextId n)) := by
  refine ⟨?_, ?_, ?_⟩
  · intro hq
    exact (array_proxy_init_ok haveIndexedGzip dflt src spec mmap keep lk
      q hq).2.2.1
  · intro ht hop
    have h1 := read_op_first p w ht hop
    have h2 := read_n_cached n
      ({ p with opener := some (Opener.mk w.nextId
          (!(p.file_like.hasRead && p.file_like.hasSeek)) false) })
      (Opener.mk w.nextId (!(p.file_like.hasRead && p.file_like.hasSeek))
        false)
      ({ w with nextId := w.nextId + 1, openLog := w.openLog ++ [w.nextId] })
      ht rfl
    constructor
    · simp only [read_n, h1, h2]
    · simp only [read_n, h1, h2, List.replicate_succ]
  · intro hf
    have h := read_n_fresh n p w hf
    refine ⟨?_, ?_, ?_, ?_⟩
    · simp [h]
    · simp [h]
    · simp [h]
    · intro hh
      simp [h, hh]

/-- Witness for C4, the spec's concrete scenario: under the persistent
policy, 10 sequential reads on one proxy produce exactly one opener
invocation (and all ten reads use handle 0); under the fresh policy the same
10 reads produce ten invocations, each closed at its scope end. -/
theorem c4_lazy_persistent_witness :
    (read_n 10
        { file_like := ⟨false, false, ['x', '.', 'g', 'z']⟩, header := none,
          shape := [2], dtype := ⟨0⟩, offset := 0, slope := 1, inter := 0,
          mmap := .yes, keep_file_open := .yes, opener := none }
        World.init).2.1.openLog = [0]
  ∧ (read_n 10
        { file_like := ⟨false, false, ['x', '.', 'g', 'z']⟩, header := none,
          shape := [2], dtype := ⟨0⟩, offset := 0, slope := 1, inter := 0,
          mmap := .yes, keep_file_open := .yes, opener := none }
        World.init).2.2 = List.replicate 10 0
  ∧ (read_n 10
        { file_like := ⟨false, false, ['x', '.', 'g', 'z']⟩, header := none,
          shape := [2], dtype := ⟨0⟩, offset := 0, slope := 1, inter := 0,
          mmap := .yes, keep_file_open := .no, opener := none }
        World.init).2.1.openLog = List.range' 0 10
  ∧ (read_n 10
        { file_like := ⟨false, false, ['x', '.', 'g', 'z']⟩, header := none,
          shape := [2], dtype := ⟨0⟩, offset := 0, slope := 1, inter := 0,
          mmap := .yes, keep_file_open := .no, opener := none }
        World.init).2.1.closeLog = List.range' 0 10 := by
  have hp := c4_lazy_persistent true KeepVal.no ⟨false, false, ['x']⟩
    (.tup2 [] (.valid ⟨0⟩)) .yes (some .no) 0
    ⟨⟨⟨false, false, ['x']⟩, none, [], ⟨0⟩, 0, 1, 0, .yes, .no, none⟩, 0⟩
    { file_like := ⟨false, false, ['x', '.', 'g', 'z']⟩, header := none,
      shape := [2], dtype := ⟨0⟩, offset := 0, slope := 1, inter := 0,
      mmap := .yes, keep_file_open := .yes, opener := none }
    World.init 9
  have hf := c4_lazy_persistent true KeepVal.no ⟨false, false, ['x']⟩
    (.tup2 [] (.valid ⟨0⟩)) .yes (some .no) 0
    ⟨⟨⟨false, false, ['x']⟩, none, [], ⟨0⟩, 0, 1, 0, .yes, .no, none⟩, 0⟩
    { file_like := ⟨false, false, ['x', '.', 'g', 'z']⟩, header := none,
      shape := [2], dtype := ⟨0⟩, offset := 0, slope := 1, inter := 0,
      mmap := .yes, keep_file_open := .no, opener := none }
    World.init 10
  have h1 := hp.2.1 rfl rfl
  have h2 := hf.2.2 rfl
  exact ⟨h1.1, h1.2, h2.1, h2.2.2.2 rfl⟩

/-! ## Claim C6 -/

/-- The non-placeholder entries of a requested reshape target: what the
claim calls the known dimensions. -/
def known_dims (shape : List Int) : List Int :=
  shape.filter fun e => decide (e ≠ -1)

/-- Folding multiplication from an accumulator is the accumulator times the
product. -/
theorem foldl_mul_eq (l : List Int) (a : Int) :
    l.foldl (· * ·) a = a * l.prod := by
  induction l generalizing a with
  | nil => simp
  | cons x xs ih => simp [List.foldl_cons, ih, List.prod_cons, mul_assoc]

/-- With exactly one `-1` entry, the list's product is `-1` times the
product of the remaining (known) entries. -/
theorem prod_of_single_neg_one (l : List Int) (h : l.count (-1) = 1) :
    l.prod = -1 * (known_dims l).prod := by
  induction l with
  | nil => simp at h
  | cons x xs ih =>
      by_cases hx : x = -1
      · subst hx
        have hxs : xs.count (-1) = 0 := by
          simpa [List.count_cons] using h
        have hmem : (-1 : Int) ∉ xs := List.count_eq_zero.mp hxs
        have hfil : known_dims xs = xs := by
          rw [known_dims, List.filter_eq_self]
          intro a ha
          simp only [decide_eq_true_eq]
          intro hae
          exact hmem (hae ▸ ha)
        have hfil2 : List.filter (fun e => !decide (e = -1)) xs = xs := by
          simpa [known_dims] using hfil
        simp [known_dims, List.filter_cons, List.prod_cons, hfil2]
      · have hxs : xs.count (-1) = 1 := by
          simpa [List.count_cons, hx] using h
        have ihx := ih hxs
        simp only [known_dims, List.filter_cons, List.prod_cons,
          decide_eq_true_eq] at ihx ⊢
        rw [if_pos hx, List.prod_cons, ihx]
        ring

/-- `reduce(mul, shape, -1)` equals the product of the known dimensions when
exactly one placeholder is present. -/
theorem known_size_eq (shape : List Int) (h : shape.count (-1) = 1) :
    shape.foldl (· * ·) (-1) = (known_dims shape).prod := by
  rw [foldl_mul_eq, prod_of_single_neg_one shape h]
  ring

/-- The child construction performed by `reshape` succeeds whenever the
parent's stored `mmap` and the global default policy are recognized values:
every attribute is inherited except `keep_file_open`, which is resolved
afresh from the defaults. -/
theorem reshape_child_init (haveIndexedGzip : Bool) (dflt : KeepVal)
    (p : ProxyCore) (shape2 : List Int) (lk : Nat)
    (hmm : p.mmap ≠ MmapArg.other) (hdflt : dflt ≠ KeepVal.other) :
    ∃ kfo, should_keep_file_open haveIndexedGzip dflt p.file_like none
        = .ok kfo
      ∧ array_proxy_init haveIndexedGzip dflt p.file_like
          (.tup5 shape2 (.valid p.dtype) p.offset p.slope p.inter)
          p.mmap none lk
        = .ok ⟨⟨p.file_like, none, shape2, p.dtype, p.offset, p.slope,
                p.inter, p.mmap, kfo, none⟩, lk⟩ := by
  obtain ⟨kfo, hk⟩ := should_keep_ok haveIndexedGzip dflt p.file_like none
    (by simpa using hdflt)
  refine ⟨kfo, hk, ?_⟩
  simp [array_proxy_init, resolve_spec, npDtype, hmm, hk]

/-- Claim C6: `reshape` returns a new proxy with the same source reference,
dtype, offset, slope, inter and mmap mode but the new shape, touching no
file (the child has no opener and the operation never consults the handle
world); a single `-1` placeholder is resolved by integer division of the
original element count by the product of the known dimensions; it fails with
the reshape error conditions (`ReshapeError`) when more than one placeholder
is given or when the resulting element count differs from the original.
Hypotheses: the placeholder division must be defined (nonzero known
product), and the stored mmap and global default policy are recognized
values so that child construction itself cannot fail. -/
theorem c6_reshape (haveIndexedGzip : Bool) (dflt : KeepVal) (p : ProxyCore)
    (shape : List Int) (lk : Nat)
    (hmm : p.mmap ≠ MmapArg.other) (hdflt : dflt ≠ KeepVal.other) :
    (shape.count (-1) > 1 →
        reshape_op haveIndexedGzip dflt p shape lk = .error .reshapeTooMany)
  ∧ (shape.count (-1) = 0 → shape.prod ≠ p.shape.prod →
        reshape_op haveIndexedGzip dflt p shape lk
          = .error .reshapeSizeMismatch)
  ∧ (shape.count (-1) = 0 → shape.prod = p.shape.prod →
        ∃ c, reshape_op haveIndexedGzip dflt p shape lk = .ok c
          ∧ c.core.shape = shape ∧ c.core.file_like = p.file_like
          ∧ c.core.dtype = p.dtype ∧ c.core.offset = p.offset
          ∧ c.core.slope = p.slope ∧ c.core.inter = p.inter
          ∧ c.core.mmap = p.mmap ∧ c.core.opener = none)
  ∧ (shape.count (-1) = 1 → (known_dims shape).prod ≠ 0 →
        ((shape.map fun e => if e = -1
             then Int.fdiv p.shape.prod (known_dims shape).prod
             else e).prod = p.shape.prod →
          ∃ c, reshape_op haveIndexedGzip dflt p shape lk = .ok c
            ∧ c.core.shape = (shape.map fun e => if e = -1
                then Int.fdiv p.shape.prod (known_dims shape).prod
                else e)
            ∧ c.core.file_like = p.file_like
            ∧ c.core.dtype = p.dtype ∧ c.core.offset = p.offset
            ∧ c.core.slope = p.slope ∧ c.core.inter = p.inter
            ∧ c.core.mmap = p.mmap ∧ c.core.opener = none)
        ∧ ((shape.map fun e => if e = -1
             then Int.fdiv p.shape.prod (known_dims shape).prod
             else e).prod ≠ p.shape.prod →
          reshape_op haveIndexedGzip dflt p shape lk
            = .error .reshapeSizeMismatch))
  ∧ isReshapeError .reshapeTooMany = true
  ∧ isReshapeError .reshapeSizeMismatch = true := by
  refine ⟨?_, ?_, ?_, ?_, rfl, rfl⟩
  · intro hgt
    simp [reshape_op, hgt]
  · intro h0 hne
    have h01 : ¬ shape.count (-1) > 1 := by omega
    have h0ne1 : ¬ shape.count (-1) = 1 := by omega
    simp [reshape_op, h01, h0ne1, hne]
  · intro h0 heq
    have h01 : ¬ shape.count (-1) > 1 := by omega
    have h0ne1 : ¬ shape.count (-1) = 1 := by omega
    obtain ⟨kfo, hk, hinit⟩ := reshape_child_init haveIndexedGzip dflt p
      shape lk hmm hdflt
    refine ⟨⟨⟨p.file_like, none, shape, p.dtype, p.offset, p.slope, p.inter,
             p.mmap, kfo, none⟩, lk⟩, ?_, rfl, rfl, rfl, rfl, rfl, rfl, rfl,
             rfl⟩
    simp [reshape_op, h01, h0ne1, heq, hinit]
  · intro h1 hk0
    have h11 : ¬ shape.count (-1) > 1 := by omega
    have hks := known_size_eq shape h1
    constructor
    · intro heq
      obtain ⟨kfo, hk, hinit⟩ := reshape_child_init haveIndexedGzip dflt p
        (shape.map fun e => if e = -1
          then Int.fdiv p.shape.prod (known_dims shape).prod else e) lk
        hmm hdflt
      refine ⟨⟨⟨p.file_like, none, _, p.dtype, p.offset, p.slope, p.inter,
               p.mmap, kfo, none⟩, lk⟩, ?_, rfl, rfl, rfl, rfl, rfl, rfl,
               rfl, rfl⟩
      simp only [reshape_op, h11, if_false, h1, if_pos, hks]
      rw [if_neg hk0]
      simp only [heq]
      simp [hinit, heq]
    · intro hne
      simp only [reshape_op, h11, if_false, h1, if_pos, hks]
      rw [if_neg hk0]
      simp [hne]

/-- Witness for C6 on a parent of shape `[2, 3]`: target `[-1, 2]` resolves
the placeholder to `6 / 2 = 3` and succeeds with shape `[3, 2]`; target
`[-1, -1]` fails with the too-many-placeholders condition; target `[4, 2]`
fails with the element-count-mismatch condition. -/
theorem c6_reshape_witness :
    (∃ c, reshape_op true KeepVal.no
        { file_like := ⟨false, false, ['x']⟩, header := none, shape := [2, 3],
          dtype := ⟨0⟩, offset := 0, slope := 1, inter := 0, mmap := .yes,
          keep_file_open := .yes, opener := none } [-1, 2] 5 = .ok c
      ∧ c.core.shape = [3, 2] ∧ c.core.opener = none)
  ∧ reshape_op true KeepVal.no
        { file_like := ⟨false, false, ['x']⟩, header := none, shape := [2, 3],
          dtype := ⟨0⟩, offset := 0, slope := 1, inter := 0, mmap := .yes,
          keep_file_open := .yes, opener := none } [-1, -1] 5
      = .error .reshapeTooMany
  ∧ reshape_op true KeepVal.no
        { file_like := ⟨false, false, ['x']⟩, header := none, shape := [2, 3],
          dtype := ⟨0⟩, offset := 0, slope := 1, inter := 0, mmap := .yes,
          keep_file_open := .yes, opener := none } [4, 2] 5
      = .error .reshapeSizeMismatch := by
  have h := c6_reshape true KeepVal.no
    { file_like := ⟨false, false, ['x']⟩, header := none, shape := [2, 3],
      dtype := ⟨0⟩, offset := 0, slope := 1, inter := 0, mmap := .yes,
      keep_file_open := .yes, opener := none } [-1, 2] 5
    (by decide) (by decide)
  have h2 := c6_reshape true KeepVal.no
    { file_like := ⟨false, false, ['x']⟩, header := none, shape := [2, 3],
      dtype := ⟨0⟩, offset := 0, slope := 1, inter := 0, mmap := .yes,
      keep_file_open := .yes, opener := none } [-1, -1] 5
    (by decide) (by decide)
  have h3 := c6_reshape true KeepVal.no
    { file_like := ⟨false, false, ['x']⟩, header := none, shape := [2, 3],
      dtype := ⟨0⟩, offset := 0, slope := 1, inter := 0, mmap := .yes,
      keep_file_open := .yes, opener := none } [4, 2] 5
    (by decide) (by decide)
  refine ⟨?_, h2.1 (by decide), h3.2.1 (by decide) (by decide)⟩
  obtain ⟨c, hc, hsh, -, -, -, -, -, -, hop⟩ :=
    (h.2.2.2.1 (by decide) (by decide)).1 (by decide)
  exact ⟨c, hc, by rw [hsh]; decide, hop⟩

/-! ## Claim C10 -/

/-- A successful `reshape` is exactly a successful child `__init__` on some
resolved shape, called with the parent's source, dtype, offset, slope,
inter and mmap — and with `keep_file_open` not passed. -/
theorem reshape_ok_init (haveIndexedGzip : Bool) (dflt : KeepVal)
    (p : ProxyCore) (shape : List Int) (lk : Nat) (c : ArrayProxy)
    (hc : reshape_op haveIndexedGzip dflt p shape lk = .ok c) :
    ∃ shape2, array_proxy_init haveIndexedGzip dflt p.file_like
        (.tup5 shape2 (.valid p.dtype) p.offset p.slope p.inter)
        p.mmap none lk = .ok c := by
  unfold reshape_op at hc
  dsimp only at hc
  split at hc
  · exact absurd hc (by simp)
  · split at hc
    · exact absurd hc (by simp)
    · split at hc
      · exact absurd hc (by simp)
      · exact ⟨_, hc⟩

/-- Claim C10: the proxy returned by `reshape` does not inherit the parent's
keep-open policy: the child is built passing only the spec and the parent's
mmap, so its `keep_file_open` is re-derived exactly as if the flag were
unspecified (from the process-wide default), for every parent — including
one whose own stored policy was an explicit persistent or auto value, since
the result does not depend on the parent's stored policy at all; the mmap
mode, source, and dtype are inherited. -/
theorem c10_reshape_policy (haveIndexedGzip : Bool) (dflt : KeepVal)
    (p : ProxyCore) (shape : List Int) (lk : Nat) (c : ArrayProxy)
    (hc : reshape_op haveIndexedGzip dflt p shape lk = .ok c) :
    c.core.mmap = p.mmap
  ∧ should_keep_file_open haveIndexedGzip dflt p.file_like none
      = .ok c.core.keep_file_open
  ∧ c.core.file_like = p.file_like
  ∧ c.core.dtype = p.dtype
  ∧ ∀ k', reshape_op haveIndexedGzip dflt
        { p with keep_file_open := k' } shape lk
      = reshape_op haveIndexedGzip dflt p shape lk := by
  obtain ⟨shape2, hinit⟩ := reshape_ok_init haveIndexedGzip dflt p shape lk
    c hc
  obtain ⟨hfl, hmm, -, -, hkeep, par, hres, hdt, -, -, -, -, -⟩ :=
    array_proxy_init_ok haveIndexedGzip dflt p.file_like
      (.tup5 shape2 (.valid p.dtype) p.offset p.slope p.inter)
      p.mmap none lk c hinit
  cases hres
  exact ⟨hmm, hkeep, hfl, (Option.some.inj hdt).symm, fun k' => rfl⟩

/-- Witness for C10: a parent with the explicit persistent policy (`True`)
whose reshape child nevertheless resolves `keep_file_open` from the default
(`False` here), while inheriting the mmap mode. -/
theorem c10_reshape_policy_witness :
    should_keep_file_open true KeepVal.no ⟨false, false, ['x']⟩ none
      = .ok KeepVal.no
  ∧ (reshape_op true KeepVal.no
      { file_like := ⟨false, false, ['x']⟩, header := none, shape := [2, 3],
        dtype := ⟨0⟩, offset := 0, slope := 1, inter := 0, mmap := .c,
        keep_file_open := .yes, opener := none } [3, 2] 5).map
      (fun c => (c.core.keep_file_open, c.core.mmap))
      = .ok (KeepVal.no, MmapArg.c) := by
  have hc : reshape_op true KeepVal.no
      { file_like := ⟨false, false, ['x']⟩, header := none, shape := [2, 3],
        dtype := ⟨0⟩, offset := 0, slope := 1, inter := 0, mmap := .c,
        keep_file_open := .yes, opener := none } [3, 2] 5
      = .ok ⟨⟨⟨false, false, ['x']⟩, none, [3, 2], ⟨0⟩, 0, 1, 0, .c, .no,
              none⟩, 5⟩ := by rfl
  have h := c10_reshape_policy true KeepVal.no
    { file_like := ⟨false, false, ['x']⟩, header := none, shape := [2, 3],
      dtype := ⟨0⟩, offset := 0, slope := 1, inter := 0, mmap := .c,
      keep_file_open := .yes, opener := none } [3, 2] 5
    ⟨⟨⟨false, false, ['x']⟩, none, [3, 2], ⟨0⟩, 0, 1, 0, .c, .no, none⟩, 5⟩
    hc
  refine ⟨h.2.1, ?_⟩
  rw [hc]
  rfl

/-! ## Claim C1 -/

/-- A proxy under the persistent policy whose handle (identity 0, opened by
the proxy itself, still open) has already been created by a first read. -/
def c1_proxy : ArrayProxy :=
  ⟨{ file_like := ⟨false, false, ['x', '.', 'g', 'z']⟩, header := none,
     shape := [2], dtype := ⟨0⟩, offset := 0, slope := 1, inter := 0,
     mmap := .yes, keep_file_open := .yes, opener := some ⟨0, true, false⟩ },
   7⟩

/-- Claim C1 counterexample: `__getstate__` pops only `_lock` from the
captured `__dict__`, so for `c1_proxy` — whose persistent handle 0 is open —
the captured state still contains that handle, and the proxy restored by
`__setstate__` reuses handle 0 on its first read, opening no new handle
(the opener invocation log stays empty).  This contradicts the claim that
the captured state contains no previously opened persistent handle and that
the first post-restore read opens exactly one new handle. -/
theorem c1_counterexample :
    (getstate c1_proxy).core.opener = some ⟨0, true, false⟩
  ∧ read_op (setstate (getstate c1_proxy) 9).core World.init
      = ((setstate (getstate c1_proxy) 9).core, World.init, 0)
  ∧ (read_op (setstate (getstate c1_proxy) 9).core World.init).2.1.openLog
      = [] := ⟨rfl, rfl, rfl⟩

/-- Claim C1 as amended: the captured state excludes the lock and
restoration installs a fresh lock, but the state retains the `_opener`
attribute exactly as it was; a restored proxy that had an open persistent
handle before serialization reuses that handle on its first read and opens
no new one, and only a proxy serialized before any persistent handle was
opened opens exactly one new handle on its first post-restore read. -/
theorem c1_amended (p : ArrayProxy) (st : ProxyDict) (lk : Nat) (w : World) :
    (getstate p).lock = none
  ∧ (setstate st lk).lockId = lk
  ∧ (getstate p).core.opener = p.core.opener
  ∧ (p.core.keep_file_open.truthy = true → p.core.opener = none →
      (read_n 1 (setstate (getstate p) lk).core w).2.1.openLog
        = w.openLog ++ [w.nextId])
  ∧ (∀ op, p.core.keep_file_open.truthy = true →
      p.core.opener = some op →
      read_op (setstate (getstate p) lk).core w
        = ((setstate (getstate p) lk).core, w, op.id)) := by
  refine ⟨rfl, rfl, rfl, ?_, ?_⟩
  · intro ht hop
    have h := read_op_first p.core w ht hop
    simp only [read_n, getstate, setstate]
    simp only [getstate, setstate] at h
    simp [h, read_n]
  · intro op ht hop
    exact read_op_cached p.core op w ht hop

/-- Witness for C1 (amended): at `c1_proxy` the captured state has no lock
entry and the restored proxy's first read reuses the retained handle 0. -/
theorem c1_amended_witness :
    (getstate c1_proxy).lock = none
  ∧ read_op (setstate (getstate c1_proxy) 9).core World.init
      = ((setstate (getstate c1_proxy) 9).core, World.init, 0) := by
  have h := c1_amended c1_proxy (getstate c1_proxy) 9 World.init
  exact ⟨h.1, h.2.2.2.2 ⟨0, true, false⟩ rfl rfl⟩

/-! ## Claim C2 -/

/-- The lock discipline of `get_unscaled`: a thread owns the lock only while
it is inside the raw read (pc 4), never during the check/create/yield phase
(pc 0-2) of `_get_fileobj`. -/
def gf_inv (m : GfMachine) : Prop :=
  (m.sh.lockOwner = some false → m.t0.pc = 4)
  ∧ (m.sh.lockOwner = some true → m.t1.pc = 4)

/-- The lock discipline is preserved by every step of either thread. -/
theorem gf_inv_step (m : GfMachine) (who : Bool) (h : gf_inv m) :
    gf_inv (gf_step m who) := by
  obtain ⟨⟨pc0, saw0, hd0⟩, ⟨pc1, saw1, hd1⟩, ⟨opn, nid, ops, lo⟩⟩ := m
  obtain ⟨h0, h1⟩ := h
  simp only [gf_inv] at h0 h1 ⊢
  cases who with
  | false =>
      rcases pc0 with _ | _ | _ | _ | _ | k <;>
        rcases lo with _ | (_ | _) <;>
        rcases saw0 with _ | _ <;>
        simp_all [gf_step, gf_step_thread]
  | true =>
      rcases pc1 with _ | _ | _ | _ | _ | k <;>
        rcases lo with _ | (_ | _) <;>
        rcases saw1 with _ | _ <;>
        simp_all [gf_step, gf_step_thread]

/-- The lock discipline holds in every reachable state, under every
schedule. -/
theorem gf_run_inv (sched : List Bool) : gf_inv (gf_run sched) := by
  have step : ∀ (l : List Bool) (m : GfMachine), gf_inv m →
      gf_inv (l.foldl gf_step m) := by
    intro l
    induction l with
    | nil => intro m hm; exact hm
    | cons a t ih => intro m hm; exact ih _ (gf_inv_step m a hm)
  refine step sched gf_machine_init ⟨?_, ?_⟩ <;>
    · intro hlo
      simp [gf_machine_init] at hlo

/-- Claim C2 counterexample: in the two-thread interleaving of
`get_unscaled` under the persistent policy, the schedule in which both
threads execute the `hasattr(self, '_opener')` check (pc 0) before either
executes the create-and-assign step (pc 1) ends with two `ImageOpener`
creations — two persistent handles — contradicting the claim that at most
one persistent handle is ever created when two threads perform their first
access concurrently. -/
theorem c2_counterexample :
    (gf_run [false, true, false, true]).sh.opens = 2 := by decide

/-- Claim C2 as amended: the first-time creation of the persistent handle is
NOT performed while the proxy's lock is held — the creating thread reaches
the lock only afterwards (in `with self._get_fileobj() as fileobj,
self._lock:` the generator body runs before the lock is acquired), so two
concurrent first accesses may each create a handle; a single thread running
alone still creates exactly one handle; and a creation failure leaves no
half-initialized cached handle, because the attribute assignment happens
only after the `ImageOpener` constructor has returned. -/
theorem c2_amended (sched : List Bool) (who : Bool) (p : ProxyCore)
    (w : World) :
    ((gf_thread who (gf_run sched)).pc = 1 →
        (gf_run sched).sh.lockOwner ≠ some who)
  ∧ (gf_run [false, false, false, false, false]).sh.opens = 1
  ∧ (p.opener = none →
        get_fileobj_enter_try false p w = (none, p, w)) := by
  refine ⟨?_, by decide, ?_⟩
  · intro hpc hlo
    have h := gf_run_inv sched
    cases who with
    | false =>
        have := h.1 hlo
        simp [gf_thread] at hpc
        omega
    | true =>
        have := h.2 hlo
        simp [gf_thread] at hpc
        omega
  · intro hop
    by_cases ht : p.keep_file_open.truthy = true
    · simp [get_fileobj_enter_try, ht, hop]
    · simp only [Bool.not_eq_true] at ht
      simp [get_fileobj_enter_try, ht, hop]

/-- Witness for C2 (amended): after one step of thread 0 it stands at the
create step (pc 1) and does not hold the lock; a failing creation on a
concrete opener-less proxy caches nothing. -/
theorem c2_amended_witness :
    (gf_run [false]).sh.lockOwner ≠ some false
  ∧ get_fileobj_enter_try false
      { file_like := ⟨false, false, ['x']⟩, header := none, shape := [2],
        dtype := ⟨0⟩, offset := 0, slope := 1, inter := 0, mmap := .yes,
        keep_file_open := .yes, opener := none } World.init
    = (none,
       { file_like := ⟨false, false, ['x']⟩, header := none, shape := [2],
         dtype := ⟨0⟩, offset := 0, slope := 1, inter := 0, mmap := .yes,
         keep_file_open := .yes, opener := none }, World.init) := by
  have h := c2_amended [false] false
    { file_like := ⟨false, false, ['x']⟩, header := none, shape := [2],
      dtype := ⟨0⟩, offset := 0, slope := 1, inter := 0, mmap := .yes,
      keep_file_open := .yes, opener := none } World.init
  exact ⟨h.1 (by decide), h.2.2 rfl⟩
